import Mathlib

/-!
# Verification of the claude-code-queue scheduler state machine

A shallow embedding of `src/claude_code_queue/models.py` and
`src/claude_code_queue/queue_manager.py`.

Modelling conventions:
* `datetime` values become `Nat` timestamps; every operation that reads the
  clock takes the current time `now : Nat` as an explicit argument.
* The append-only execution log of a prompt becomes a `List String` of log
  messages, appended in order; the `[timestamp] ` prefix that `add_log`
  writes in front of each message is abstracted away (no claim depends on it).
* Storage I/O (`QueueStorage.save_queue_state`, file moves) is out of the
  model; the in-memory mutations of `QueueManager` become pure functions on
  `QueueState`, with a successful save assumed where the Python code only
  propagates the save's boolean.
* Python string containment (`needle in hay`) is `containsSubstring` below,
  `str.lower` is the character-wise `pyLower` and `str.strip` the
  whitespace-trimming `pyStrip`, both on the character list of the string.
-/

/-- `PromptStatus` enum from `models.py`. -/
inductive PromptStatus where
  | queued
  | executing
  | completed
  | failed
  | cancelled
deriving DecidableEq, Repr

/-- `QueuedPrompt` dataclass from `models.py` (fields that no claim touches,
such as `context_files`, `estimated_tokens` and `bookmark`, are kept to keep
the record faithful; `created_at`/`last_executed` are `Nat` timestamps). -/
structure QueuedPrompt where
  id : String := ""
  content : String := ""
  working_directory : String := "."
  created_at : Nat := 0
  priority : Int := 0
  context_files : List String := []
  max_retries : Nat := 3
  retry_count : Nat := 0
  status : PromptStatus := PromptStatus.queued
  execution_log : List String := []
  estimated_tokens : Option Nat := none
  last_executed : Option Nat := none
  permission_mode : Option String := none
  allowed_tools : Option (List String) := none
  timeout : Option Nat := none
  model : Option String := none
  bookmark : Option String := none
deriving DecidableEq, Repr

/-- `VALID_PERMISSION_MODES` from `models.py`. -/
def VALID_PERMISSION_MODES : List String :=
  ["acceptEdits", "bypassPermissions", "default", "delegate", "dontAsk", "plan"]

/-- `QueuedPrompt.__post_init__`: construction validates `permission_mode`
(and only `permission_mode`) against `VALID_PERMISSION_MODES`, raising
`ValueError` on an unrecognized mode.  Modelled as a smart constructor that
returns `Except` where the Python constructor raises. -/
def mkQueuedPrompt (p : QueuedPrompt) : Except String QueuedPrompt :=
  match p.permission_mode with
  | some m =>
      if VALID_PERMISSION_MODES.contains m then Except.ok p
      else Except.error ("Invalid permission_mode: " ++ m)
  | none => Except.ok p

/-- `QueuedPrompt.add_log`: append a message to the execution log
(the timestamp prefix is abstracted away, see the module docstring). -/
def QueuedPrompt.add_log (p : QueuedPrompt) (message : String) : QueuedPrompt :=
  { p with execution_log := p.execution_log ++ [message] }

/-- `QueuedPrompt.can_retry` from `models.py`:
`retry_count < max_retries and status == FAILED`. -/
def QueuedPrompt.can_retry (p : QueuedPrompt) : Bool :=
  p.retry_count < p.max_retries && p.status == PromptStatus.failed

/-- `RateLimitInfo` dataclass from `models.py`. -/
structure RateLimitInfo where
  is_rate_limited : Bool := false
  reset_time : Option Nat := none
  limit_message : String := ""
  timestamp : Option Nat := none
deriving DecidableEq, Repr

/-- Python substring containment `needle in hay`, on character lists:
`needle` occurs contiguously in `hay`. -/
def containsSubstring (needle : List Char) : List Char → Bool
  | [] => needle == []
  | c :: rest => needle.isPrefixOf (c :: rest) || containsSubstring needle rest

/-- Python `str.lower`, character-wise (ASCII case folding as in
`Char.toLower`). -/
def pyLower (s : List Char) : List Char := s.map Char.toLower

/-- Python `str.strip`: drop whitespace from both ends. -/
def pyStrip (s : List Char) : List Char :=
  ((s.dropWhile Char.isWhitespace).reverse.dropWhile Char.isWhitespace).reverse

/-- The `rate_limit_indicators` list from `RateLimitInfo.from_claude_response`. -/
def rate_limit_indicators : List String :=
  ["usage limit reached", "rate limit", "too many requests",
   "quota exceeded", "limit exceeded"]

/-- `RateLimitInfo.from_claude_response` from `models.py`: case-insensitive
substring match against `rate_limit_indicators`; on a match the stripped
response text becomes the message and `now` the detection timestamp. -/
def RateLimitInfo.from_claude_response (response_text : String) (now : Nat) :
    RateLimitInfo :=
  let is_limited := rate_limit_indicators.any
    (fun indicator => containsSubstring indicator.data (pyLower response_text.data))
  if is_limited then
    { is_rate_limited := true
      reset_time := none
      limit_message := String.mk (pyStrip response_text.data)
      timestamp := some now }
  else
    { is_rate_limited := false }

/-- `QueueState` dataclass from `models.py`. -/
structure QueueState where
  prompts : List QueuedPrompt := []
  last_processed : Option Nat := none
  total_processed : Nat := 0
  failed_count : Nat := 0
  rate_limited_count : Nat := 0
  current_rate_limit : Option RateLimitInfo := none
deriving DecidableEq, Repr

/-- `QueueState.is_rate_limited` from `models.py`: active while the flag is
set and (no reset time is known, or `now` is before the reset time). -/
def QueueState.is_rate_limited (s : QueueState) (now : Nat) : Bool :=
  match s.current_rate_limit with
  | none => false
  | some info =>
      if !info.is_rate_limited then false
      else
        match info.reset_time with
        | some reset => now < reset
        | none => true

/-- `QueueState.clear_rate_limit_if_expired` from `models.py`. -/
def QueueState.clear_rate_limit_if_expired (s : QueueState) (now : Nat) :
    QueueState × Bool :=
  match s.current_rate_limit with
  | none => (s, false)
  | some info =>
      if !info.is_rate_limited then (s, false)
      else
        match info.reset_time with
        | some reset =>
            if reset ≤ now then ({ s with current_rate_limit := none }, true)
            else (s, false)
        | none => (s, false)

/-- One step of Python `min(prompts, key=lambda p: p.priority)`: keep the
current best, replace it only on a strictly smaller priority (so the first
minimal element wins, matching CPython `min`). -/
def minStep (best p : QueuedPrompt) : QueuedPrompt :=
  if p.priority < best.priority then p else best

/-- `QueueState.get_next_prompt` from `models.py`: `none` while rate limited;
otherwise the first `QUEUED` prompt of minimal priority. -/
def QueueState.get_next_prompt (s : QueueState) (now : Nat) :
    Option QueuedPrompt :=
  if s.is_rate_limited now then none
  else
    match s.prompts.filter (fun p => p.status == PromptStatus.queued) with
    | [] => none
    | x :: xs => some (xs.foldl minStep x)

/-- `QueueState.get_prompt` from `models.py`: first prompt with the given id. -/
def QueueState.get_prompt (s : QueueState) (prompt_id : String) :
    Option QueuedPrompt :=
  s.prompts.find? (fun p => p.id == prompt_id)

/-- `ExecutionResult` dataclass from `models.py` (`execution_time` is only
interpolated into log text, modelled as `Nat`). -/
structure ExecutionResult where
  success : Bool
  output : String := ""
  error : String := ""
  rate_limit_info : Option RateLimitInfo := none
  execution_time : Nat := 0
deriving DecidableEq, Repr

/-- `ExecutionResult.is_rate_limited` property from `models.py`. -/
def ExecutionResult.is_rate_limited (r : ExecutionResult) : Bool :=
  match r.rate_limit_info with
  | some info => info.is_rate_limited
  | none => false

/-! ## QueueManager (`queue_manager.py`) -/

/-- `QueueManager._process_execution_result` from `queue_manager.py`, acting
on the executing prompt and the queue-level counters.  The Python method
mutates `prompt` (aliased inside `state.prompts`) and `self.state`; here it
returns the updated prompt and the updated counter/rate-limit fields of the
state.  Branch order matches the source: `success` first, then
`result.is_rate_limited`, then the failure path which increments
`retry_count` before consulting `can_retry`. -/
def process_execution_result (state : QueueState) (prompt : QueuedPrompt)
    (result : ExecutionResult) (now : Nat) : QueuedPrompt × QueueState :=
  let (p, st) :=
    if result.success then
      let p := { prompt with status := PromptStatus.completed }
      let p := p.add_log "Execution completed - SUCCESS"
      let p := if result.output ≠ "" then p.add_log ("Output:\n" ++ result.output) else p
      (p, { state with total_processed := state.total_processed + 1 })
    else if result.is_rate_limited then
      let p := { prompt with status := PromptStatus.queued }
      let p := p.add_log "Execution completed - RATE LIMITED (will retry when limit resets)"
      let p :=
        match result.rate_limit_info with
        | some info =>
            if info.limit_message ≠ "" then p.add_log ("Message: " ++ info.limit_message) else p
        | none => p
      (p, { state with current_rate_limit := result.rate_limit_info
                       rate_limited_count := state.rate_limited_count + 1 })
    else
      let p := { prompt with retry_count := prompt.retry_count + 1 }
      if p.can_retry then
        let p := { p with status := PromptStatus.queued }
        let p := p.add_log "Execution completed - FAILED (will retry)"
        let p := if result.error ≠ "" then p.add_log ("Error: " ++ result.error) else p
        (p, state)
      else
        let p := { p with status := PromptStatus.failed }
        let p := p.add_log "Execution completed - FAILED (max retries exceeded)"
        let p := if result.error ≠ "" then p.add_log ("Error: " ++ result.error) else p
        (p, { state with failed_count := state.failed_count + 1 })
  (p, { st with last_processed := some now })

/-- The per-prompt crash-recovery step: force an `EXECUTING` prompt back to
`QUEUED` with an appended log message; leave every other prompt unchanged.
This is the loop body of `QueueManager._shutdown` and of the `finally`
block of `QueueManager.process_next`. -/
def forceRequeue (message : String) (p : QueuedPrompt) : QueuedPrompt :=
  if p.status == PromptStatus.executing then
    ({ p with status := PromptStatus.queued }).add_log message
  else p

/-- `QueueManager._shutdown` (state part): every `EXECUTING` prompt is forced
back to `QUEUED` with the interruption logged. -/
def shutdown_prompts (prompts : List QueuedPrompt) : List QueuedPrompt :=
  prompts.map (forceRequeue "Execution interrupted during shutdown")

/-- Modelled from the spec: `QueueStorage.load_queue_state` lives in
`storage.py`, which is not under `src/` (only its tests and callers are).
Per spec §4.2, "on every scheduler load, any item found in state `Executing`
is forced back to `Queued` with an appended log entry noting the
interruption".  `disk` stands for the on-disk state the store would
assemble from the status containers and the aggregate side file. -/
def load_queue_state (disk : QueueState) : QueueState :=
  { disk with prompts := disk.prompts.map (forceRequeue "Execution interrupted") }

/-- The reload-and-reconcile step at the top of
`QueueManager._process_queue_iteration` (lines 131-156): remember the
previous counters, `last_processed` and rate-limit condition, reload from
storage, put the remembered rate-limit condition back (unconditionally,
whenever a previous in-memory state existed), then fold each counter
forward with `max` and keep the later `last_processed`. -/
def reconcile (previous : Option QueueState) (reloaded : QueueState) :
    QueueState :=
  let previous_total_processed := match previous with | some s => s.total_processed | none => 0
  let previous_failed_count := match previous with | some s => s.failed_count | none => 0
  let previous_rate_limited_count := match previous with | some s => s.rate_limited_count | none => 0
  let previous_last_processed := match previous with | some s => s.last_processed | none => none
  let st :=
    match previous with
    | some prev => { reloaded with current_rate_limit := prev.current_rate_limit }
    | none => reloaded
  let st := { st with
    total_processed := max st.total_processed previous_total_processed
    failed_count := max st.failed_count previous_failed_count
    rate_limited_count := max st.rate_limited_count previous_rate_limited_count }
  match previous_last_processed with
  | none => st
  | some prev_lp =>
      match st.last_processed with
      | none => { st with last_processed := some prev_lp }
      | some lp =>
          if lp < prev_lp then { st with last_processed := some prev_lp } else st

/-- Cancel the first prompt with the given id: the Python code mutates the
aliased object found by `get_prompt`, setting `CANCELLED` and logging. -/
def cancelFirst : List QueuedPrompt → String → List QueuedPrompt
  | [], _ => []
  | p :: ps, pid =>
      if p.id == pid then
        ({ p with status := PromptStatus.cancelled }).add_log "Cancelled by user" :: ps
      else p :: cancelFirst ps pid

/-- `QueueManager.remove_prompt` from `queue_manager.py` (state part, save
assumed to succeed): refuse to cancel an `EXECUTING` prompt, otherwise mark
the found prompt `CANCELLED` with a log entry.  Returns the updated state
and the boolean the method returns. -/
def remove_prompt (s : QueueState) (prompt_id : String) : QueueState × Bool :=
  match s.get_prompt prompt_id with
  | none => (s, false)
  | some p =>
      if p.status == PromptStatus.executing then (s, false)
      else ({ s with prompts := cancelFirst s.prompts prompt_id }, true)

/-! ## Spec-side definitions and concrete inputs used by the theorems -/

/-- Spec §4.3 step 1: "`last_processed` becomes the later of the two
timestamps" — the merge of two optional timestamps keeping the later one. -/
def laterTime : Option Nat → Option Nat → Option Nat
  | none, b => b
  | some a, none => some a
  | some a, some b => some (max a b)

/-- An active rate-limit condition used as a concrete reloaded-state value. -/
def sampleRateLimit : RateLimitInfo :=
  { is_rate_limited := true
    reset_time := some 100
    limit_message := "rate limit"
    timestamp := some 1 }

/-- Concrete prompt for the C1 failing input: just started executing, no
retries used, default retry budget of 3. -/
def c1_prompt : QueuedPrompt :=
  { id := "t1", status := PromptStatus.executing, retry_count := 0, max_retries := 3 }

/-- Concrete non-rate-limited failed execution result for the C1 failing input. -/
def c1_result : ExecutionResult := { success := false }

/-- Concrete state with one COMPLETED prompt, for the C7 counterexample. -/
def c7_state : QueueState :=
  { prompts := [{ id := "p1", status := PromptStatus.completed }] }

/-- Concrete state with one EXECUTING prompt, for the C7 witness. -/
def c7w_state : QueueState :=
  { prompts := [{ id := "e1", status := PromptStatus.executing }] }

/-- Concrete prompt carrying an unrecognized model tag and an arbitrary
allowed-tool list, for the C8 counterexample. -/
def c8_prompt : QueuedPrompt :=
  { id := "m1", model := some "not-a-real-model", allowed_tools := some ["NotATool"] }

/-- Concrete prompt with an unrecognized permission mode, for the C8 witness. -/
def c8w_prompt : QueuedPrompt := { id := "m2", permission_mode := some "yolo" }

/-- Concrete three-prompt queue used by the C3 witness: two `QUEUED`
prompts with priorities 5 and 1 and one `COMPLETED` prompt that also has
priority 1 but must be ignored by selection. -/
def c3_state : QueueState :=
  { prompts :=
      [ { id := "a", priority := 5 },
        { id := "b", priority := 1 },
        { id := "c", priority := 1, status := PromptStatus.completed } ] }

/-! ## Helper lemmas -/

/-- Projections of `add_log`: only the execution log changes. -/
theorem add_log_fields (p : QueuedPrompt) (m : String) :
    (p.add_log m).status = p.status ∧ (p.add_log m).retry_count = p.retry_count ∧
    (p.add_log m).priority = p.priority ∧ (p.add_log m).id = p.id ∧
    (p.add_log m).execution_log = p.execution_log ++ [m] :=
  ⟨rfl, rfl, rfl, rfl, rfl⟩

/-- Field-by-field description of `reconcile` applied to a previous state:
prompts come from the reload, the rate-limit condition from memory, each
counter is the max of the two sides, and `last_processed` is the later of
the two timestamps. -/
theorem reconcile_some_fields (prev reloaded : QueueState) :
    (reconcile (some prev) reloaded).prompts = reloaded.prompts ∧
    (reconcile (some prev) reloaded).current_rate_limit = prev.current_rate_limit ∧
    (reconcile (some prev) reloaded).total_processed
      = max reloaded.total_processed prev.total_processed ∧
    (reconcile (some prev) reloaded).failed_count
      = max reloaded.failed_count prev.failed_count ∧
    (reconcile (some prev) reloaded).rate_limited_count
      = max reloaded.rate_limited_count prev.rate_limited_count ∧
    (reconcile (some prev) reloaded).last_processed
      = laterTime prev.last_processed reloaded.last_processed := by
  unfold reconcile laterTime
  cases hp : prev.last_processed with
  | none => simp [hp]
  | some a =>
      simp only [hp]
      cases hr : reloaded.last_processed with
      | none => simp
      | some b =>
          simp only []
          refine ⟨?_, ?_, ?_, ?_, ?_, ?_⟩ <;> split <;> simp <;> omega

/-- `reconcile` never touches the prompt list, with or without a previous
in-memory state. -/
theorem reconcile_prompts_eq (previous : Option QueueState) (reloaded : QueueState) :
    (reconcile previous reloaded).prompts = reloaded.prompts := by
  cases previous with
  | none =>
      unfold reconcile
      cases hr : reloaded.last_processed <;> simp
  | some prev => exact (reconcile_some_fields prev reloaded).1

/-! ## Claim theorems -/

/-- C4: the reload-and-reconcile step is monotonic and idempotent: each of
the three counters after reconciliation equals the maximum of its in-memory
and reloaded values, `last_processed` becomes the later of the two
timestamps, and a second reconciliation of the result against the same
reload leaves all of these fields exactly where they were (so it never
decreases a counter or moves `last_processed` backward). -/
theorem reconcile_monotone_idempotent (prev reloaded : QueueState) :
    (reconcile (some prev) reloaded).total_processed
        = max prev.total_processed reloaded.total_processed ∧
    (reconcile (some prev) reloaded).failed_count
        = max prev.failed_count reloaded.failed_count ∧
    (reconcile (some prev) reloaded).rate_limited_count
        = max prev.rate_limited_count reloaded.rate_limited_count ∧
    (reconcile (some prev) reloaded).last_processed
        = laterTime prev.last_processed reloaded.last_processed ∧
    (reconcile (some (reconcile (some prev) reloaded)) reloaded).total_processed
        = (reconcile (some prev) reloaded).total_processed ∧
    (reconcile (some (reconcile (some prev) reloaded)) reloaded).failed_count
        = (reconcile (some prev) reloaded).failed_count ∧
    (reconcile (some (reconcile (some prev) reloaded)) reloaded).rate_limited_count
        = (reconcile (some prev) reloaded).rate_limited_count ∧
    (reconcile (some (reconcile (some prev) reloaded)) reloaded).last_processed
        = (reconcile (some prev) reloaded).last_processed := by
  obtain ⟨-, -, h3, h4, h5, h6⟩ := reconcile_some_fields prev reloaded
  obtain ⟨-, -, g3, g4, g5, g6⟩ :=
    reconcile_some_fields (reconcile (some prev) reloaded) reloaded
  refine ⟨?_, ?_, ?_, ?_, ?_, ?_, ?_, ?_⟩
  · rw [h3, Nat.max_comm]
  · rw [h4, Nat.max_comm]
  · rw [h5, Nat.max_comm]
  · exact h6
  · rw [g3, h3]; omega
  · rw [g4, h4]; omega
  · rw [g5, h5]; omega
  · rw [g6, h6]
    cases prev.last_processed <;> cases reloaded.last_processed <;>
      simp [laterTime]

/-- C5 counterexample: with an in-memory state carrying no rate-limit
condition and a freshly reloaded state that does express one, the code keeps
the in-memory `None` and the reloaded condition does not survive, contrary
to the claim. -/
theorem reconcile_drops_reloaded_rate_limit :
    ({} : QueueState).current_rate_limit = none ∧
    ({ current_rate_limit := some sampleRateLimit } : QueueState).current_rate_limit
      = some sampleRateLimit ∧
    (reconcile (some {}) { current_rate_limit := some sampleRateLimit }).current_rate_limit
      = none := by
  refine ⟨rfl, rfl, ?_⟩
  exact (reconcile_some_fields {} { current_rate_limit := some sampleRateLimit }).2.1

/-- C5 (amended): during the reload step the in-memory rate-limit condition
unconditionally replaces the reloaded one whenever a previous in-memory
state exists — even when the in-memory condition is absent and the reloaded
state expresses one; only when there is no previous in-memory state does the
reloaded condition survive. -/
theorem reconcile_rate_limit_from_memory (prev reloaded : QueueState) :
    (reconcile (some prev) reloaded).current_rate_limit = prev.current_rate_limit ∧
    (reconcile none reloaded).current_rate_limit = reloaded.current_rate_limit := by
  refine ⟨(reconcile_some_fields prev reloaded).2.1, ?_⟩
  unfold reconcile
  cases hr : reloaded.last_processed <;> simp

/-- C1 (code-bug evidence): on the scheduler's failure path the prompt still
has status `EXECUTING` when `can_retry` is consulted, and `can_retry`
requires status `FAILED`, so even a first failure with `retry_count = 0` and
`max_retries = 3` is marked terminal `FAILED` and the failure counter
increments — the repository's own test
(`tests/test_queue_manager.py::test_execute_prompt_failure`) expects status
`QUEUED` here instead. -/
theorem first_failure_marked_failed :
    (process_execution_result {} c1_prompt c1_result 5).1.retry_count = 1 ∧
    (process_execution_result {} c1_prompt c1_result 5).1.status
      = PromptStatus.failed ∧
    (process_execution_result {} c1_prompt c1_result 5).2.failed_count = 1 ∧
    c1_prompt.retry_count = 0 ∧ c1_prompt.max_retries = 3 ∧
    c1_prompt.status = PromptStatus.executing ∧
    c1_result.success = false ∧ c1_result.is_rate_limited = false := by
  decide

/-- C6: a rate-limited, unsuccessful execution result re-queues the item
without touching its retry counter, installs the result's rate-limit info as
the scheduler-wide condition, increments the rate-limited counter, and
leaves the failure counter (and success counter) alone. -/
theorem rate_limited_result_requeues (s : QueueState) (p : QueuedPrompt)
    (r : ExecutionResult) (now : Nat)
    (hs : r.success = false) (hrl : r.is_rate_limited = true) :
    (process_execution_result s p r now).1.status = PromptStatus.queued ∧
    (process_execution_result s p r now).1.retry_count = p.retry_count ∧
    (process_execution_result s p r now).2.current_rate_limit = r.rate_limit_info ∧
    (process_execution_result s p r now).2.rate_limited_count
      = s.rate_limited_count + 1 ∧
    (process_execution_result s p r now).2.failed_count = s.failed_count ∧
    (process_execution_result s p r now).2.total_processed = s.total_processed := by
  unfold process_execution_result
  rw [hs, hrl]
  cases hinfo : r.rate_limit_info with
  | none => simp [QueuedPrompt.add_log]
  | some info =>
      by_cases hm : info.limit_message = "" <;>
        simp [QueuedPrompt.add_log, hinfo, hm]

/-- C6 witness: a concrete rate-limited failed result applied to a concrete
state and prompt. -/
theorem rate_limited_result_requeues_witness :
    (process_execution_result { rate_limited_count := 4, failed_count := 2 }
        c1_prompt
        { success := false, rate_limit_info := some sampleRateLimit } 9).1.status
      = PromptStatus.queued ∧
    (process_execution_result { rate_limited_count := 4, failed_count := 2 }
        c1_prompt
        { success := false, rate_limit_info := some sampleRateLimit } 9).1.retry_count
      = c1_prompt.retry_count ∧
    (process_execution_result { rate_limited_count := 4, failed_count := 2 }
        c1_prompt
        { success := false, rate_limit_info := some sampleRateLimit } 9).2.current_rate_limit
      = some sampleRateLimit ∧
    (process_execution_result { rate_limited_count := 4, failed_count := 2 }
        c1_prompt
        { success := false, rate_limit_info := some sampleRateLimit } 9).2.rate_limited_count
      = 5 ∧
    (process_execution_result { rate_limited_count := 4, failed_count := 2 }
        c1_prompt
        { success := false, rate_limit_info := some sampleRateLimit } 9).2.failed_count
      = 2 ∧
    (process_execution_result { rate_limited_count := 4, failed_count := 2 }
        c1_prompt
        { success := false, rate_limit_info := some sampleRateLimit } 9).2.total_processed
      = 0 :=
  rate_limited_result_requeues
    { rate_limited_count := 4, failed_count := 2 } c1_prompt
    { success := false, rate_limit_info := some sampleRateLimit } 9
    (by decide) (by decide)

/-- C10: a successful result always takes the success branch, marking the
item `COMPLETED` and incrementing the success counter, even when the result
also carries rate-limit info whose flag is set: the rate-limit condition and
the rate-limited and failed counters are untouched. -/
theorem success_takes_precedence (s : QueueState) (p : QueuedPrompt)
    (r : ExecutionResult) (now : Nat) (hs : r.success = true) :
    (process_execution_result s p r now).1.status = PromptStatus.completed ∧
    (process_execution_result s p r now).2.total_processed
      = s.total_processed + 1 ∧
    (process_execution_result s p r now).2.current_rate_limit
      = s.current_rate_limit ∧
    (process_execution_result s p r now).2.rate_limited_count
      = s.rate_limited_count ∧
    (process_execution_result s p r now).2.failed_count = s.failed_count := by
  unfold process_execution_result
  rw [hs]
  by_cases ho : r.output = "" <;> simp [QueuedPrompt.add_log, ho]

/-- C10 witness: a concrete successful result that simultaneously carries an
active rate-limit info. -/
theorem success_takes_precedence_witness :
    (process_execution_result {} c1_prompt
        { success := true, rate_limit_info := some sampleRateLimit } 3).1.status
      = PromptStatus.completed ∧
    (process_execution_result {} c1_prompt
        { success := true, rate_limit_info := some sampleRateLimit } 3).2.total_processed
      = 1 ∧
    (process_execution_result {} c1_prompt
        { success := true, rate_limit_info := some sampleRateLimit } 3).2.current_rate_limit
      = none ∧
    (process_execution_result {} c1_prompt
        { success := true, rate_limit_info := some sampleRateLimit } 3).2.rate_limited_count
      = 0 ∧
    (process_execution_result {} c1_prompt
        { success := true, rate_limit_info := some sampleRateLimit } 3).2.failed_count
      = 0 :=
  success_takes_precedence {} c1_prompt
    { success := true, rate_limit_info := some sampleRateLimit } 3 rfl

/-- The crash-recovery step in one lemma: its output never has status
`EXECUTING`, and on an `EXECUTING` input it re-queues and logs. -/
theorem forceRequeue_spec (m : String) (p : QueuedPrompt) :
    (forceRequeue m p).status ≠ PromptStatus.executing ∧
    (p.status = PromptStatus.executing →
      (forceRequeue m p).status = PromptStatus.queued ∧
      (forceRequeue m p).execution_log = p.execution_log ++ [m]) := by
  unfold forceRequeue
  by_cases h : p.status = PromptStatus.executing <;> simp [h, QueuedPrompt.add_log]

/-- C2: every `EXECUTING` item is forced back to `QUEUED` with an appended
interruption log entry, both on the scheduler load (spec-modelled
`load_queue_state`, see its docstring) and on explicit shutdown; hence after
the load/reconcile step of a scheduler iteration no in-memory item has
status `EXECUTING`, and neither has any item after `_shutdown`. -/
theorem no_executing_after_load_or_shutdown (previous : Option QueueState)
    (disk : QueueState) (prompts : List QueuedPrompt) :
    ((reconcile previous (load_queue_state disk)).prompts.all
        (fun p => !(p.status == PromptStatus.executing))) = true ∧
    (disk.prompts.all (fun p =>
        !(p.status == PromptStatus.executing) ||
          ((forceRequeue "Execution interrupted" p).status == PromptStatus.queued &&
            (forceRequeue "Execution interrupted" p).execution_log
              == p.execution_log ++ ["Execution interrupted"]))) = true ∧
    ((shutdown_prompts prompts).all
        (fun p => !(p.status == PromptStatus.executing))) = true ∧
    (prompts.all (fun p =>
        !(p.status == PromptStatus.executing) ||
          ((forceRequeue "Execution interrupted during shutdown" p).status
              == PromptStatus.queued &&
            (forceRequeue "Execution interrupted during shutdown" p).execution_log
              == p.execution_log ++ ["Execution interrupted during shutdown"]))) = true := by
  refine ⟨?_, ?_, ?_, ?_⟩
  · rw [reconcile_prompts_eq]
    simp only [load_queue_state, List.all_eq_true, List.mem_map]
    rintro p ⟨q, hq, rfl⟩
    simpa using (forceRequeue_spec "Execution interrupted" q).1
  · simp only [List.all_eq_true]
    intro p hp
    by_cases h : p.status = PromptStatus.executing
    · have hs := (forceRequeue_spec "Execution interrupted" p).2 h
      simp [hs.1, hs.2]
    · simp [h]
  · simp only [shutdown_prompts, List.all_eq_true, List.mem_map]
    rintro p ⟨q, hq, rfl⟩
    simpa using (forceRequeue_spec "Execution interrupted during shutdown" q).1
  · simp only [List.all_eq_true]
    intro p hp
    by_cases h : p.status = PromptStatus.executing
    · have hs := (forceRequeue_spec "Execution interrupted during shutdown" p).2 h
      simp [hs.1, hs.2]
    · simp [h]

/-- `find?` splits its list at the first hit: everything before the found
element fails the predicate. -/
theorem find?_decomp {α : Type} (pred : α → Bool) :
    ∀ (l : List α) (a : α), l.find? pred = some a →
      ∃ l1 l2, l = l1 ++ a :: l2 ∧ (∀ q ∈ l1, pred q = false) ∧ pred a = true := by
  intro l
  induction l with
  | nil => intro a h; simp at h
  | cons x xs ih =>
      intro a h
      by_cases hx : pred x = true
      · rw [List.find?_cons_of_pos _ hx] at h
        obtain rfl : x = a := by injection h
        exact ⟨[], xs, rfl, by simp, hx⟩
      · rw [List.find?_cons_of_neg _ (by simpa using hx)] at h
        obtain ⟨l1, l2, rfl, h1, h2⟩ := ih a h
        refine ⟨x :: l1, l2, rfl, ?_, h2⟩
        intro q hq
        rcases List.mem_cons.mp hq with rfl | hq'
        · simpa using hx
        · exact h1 q hq'

/-- `cancelFirst` rewrites exactly the first prompt matching the id. -/
theorem cancelFirst_append (l1 : List QueuedPrompt) (p : QueuedPrompt)
    (l2 : List QueuedPrompt) (pid : String)
    (h1 : ∀ q ∈ l1, (q.id == pid) = false) (hp : (p.id == pid) = true) :
    cancelFirst (l1 ++ p :: l2) pid
      = l1 ++ (({ p with status := PromptStatus.cancelled }).add_log
          "Cancelled by user") :: l2 := by
  induction l1 with
  | nil => simp [cancelFirst, hp]
  | cons x xs ih =>
      have hx := h1 x (List.mem_cons_self x xs)
      simp only [List.cons_append, cancelFirst, hx]
      simp [ih (fun q hq => h1 q (List.mem_cons_of_mem x hq))]

/-- C7 counterexample: cancelling an item whose status is `COMPLETED` (so
neither `Queued` nor `Failed`) succeeds and marks it `CANCELLED`, contrary
to the claim that only `Queued` or `Failed` items can be cancelled. -/
theorem cancel_completed_succeeds :
    c7_state.prompts.map QueuedPrompt.status = [PromptStatus.completed] ∧
    (remove_prompt c7_state "p1").2 = true ∧
    (remove_prompt c7_state "p1").1.prompts.map QueuedPrompt.status
      = [PromptStatus.cancelled] := by
  decide

/-- C7 (amended): cancellation turns a found item `CANCELLED` (with a log
entry) from any status other than `EXECUTING` — including `COMPLETED` and
`CANCELLED`, not only `Queued` or `Failed` — touching nothing else of the
state; for an item currently `EXECUTING` the operation returns `false` and
leaves the state entirely unchanged. -/
theorem cancel_blocked_only_while_executing (s : QueueState) (pid : String)
    (p : QueuedPrompt) (hfind : s.get_prompt pid = some p) :
    (p.status = PromptStatus.executing → remove_prompt s pid = (s, false)) ∧
    (p.status ≠ PromptStatus.executing →
      (remove_prompt s pid).2 = true ∧
      ∃ l1 l2,
        s.prompts = l1 ++ p :: l2 ∧ (∀ q ∈ l1, (q.id == pid) = false) ∧
        (remove_prompt s pid).1.prompts
          = l1 ++ (({ p with status := PromptStatus.cancelled }).add_log
              "Cancelled by user") :: l2 ∧
        (remove_prompt s pid).1.total_processed = s.total_processed ∧
        (remove_prompt s pid).1.failed_count = s.failed_count ∧
        (remove_prompt s pid).1.rate_limited_count = s.rate_limited_count ∧
        (remove_prompt s pid).1.current_rate_limit = s.current_rate_limit) := by
  have hfind' : s.prompts.find? (fun q => q.id == pid) = some p := hfind
  constructor
  · intro h
    unfold remove_prompt
    rw [hfind]
    simp [h]
  · intro h
    have hb : (p.status == PromptStatus.executing) = false := by simp [h]
    have hrem : remove_prompt s pid
        = ({ s with prompts := cancelFirst s.prompts pid }, true) := by
      unfold remove_prompt
      rw [hfind]
      simp [hb]
    rw [hrem]
    obtain ⟨l1, l2, hsp, h1, h2⟩ := find?_decomp (fun q => q.id == pid) s.prompts p hfind'
    refine ⟨rfl, l1, l2, hsp, h1, ?_, rfl, rfl, rfl, rfl⟩
    simp only [hsp]
    exact cancelFirst_append l1 p l2 pid h1 h2

/-- C7 witness: cancelling the concrete `EXECUTING` item of `c7w_state`
fails and changes nothing. -/
theorem cancel_blocked_witness :
    remove_prompt c7w_state "e1" = (c7w_state, false) :=
  (cancel_blocked_only_while_executing c7w_state "e1"
      { id := "e1", status := PromptStatus.executing } (by decide)).1 rfl

/-- C8 counterexample: a prompt carrying a model tag outside the documented
valid set (`sonnet`/`opus`/`haiku`) and an arbitrary allowed-tool list is
accepted at construction — no error is raised, contrary to the claim that
all three mode tags are validated. -/
theorem invalid_model_tag_accepted :
    c8_prompt.model = some "not-a-real-model" ∧
    c8_prompt.allowed_tools = some ["NotATool"] ∧
    mkQueuedPrompt c8_prompt = Except.ok c8_prompt := ⟨rfl, rfl, rfl⟩

/-- C8 (amended): construction validates only the permission mode against
the fixed enumerated set `VALID_PERMISSION_MODES`: an unrecognized
permission mode fails with an error before the item can enter the queue,
while any permission mode in the set, or none at all, is accepted regardless
of the model selection and allowed-tool values, which are not validated. -/
theorem construction_validates_permission_mode_only (p : QueuedPrompt) :
    (∀ m, p.permission_mode = some m → VALID_PERMISSION_MODES.contains m = false →
        mkQueuedPrompt p = Except.error ("Invalid permission_mode: " ++ m)) ∧
    (∀ m, p.permission_mode = some m → VALID_PERMISSION_MODES.contains m = true →
        mkQueuedPrompt p = Except.ok p) ∧
    (p.permission_mode = none → mkQueuedPrompt p = Except.ok p) := by
  refine ⟨?_, ?_, ?_⟩
  · intro m hm hc
    have hnm : ¬ m ∈ VALID_PERMISSION_MODES := by simpa using hc
    unfold mkQueuedPrompt
    rw [hm]
    simp [hnm]
  · intro m hm hc
    have hmm : m ∈ VALID_PERMISSION_MODES := by simpa using hc
    unfold mkQueuedPrompt
    rw [hm]
    simp [hmm]
  · intro hm
    unfold mkQueuedPrompt
    rw [hm]

/-- C8 witness: the concrete unrecognized permission mode `yolo` is rejected
at construction. -/
theorem construction_rejects_bad_mode_witness :
    mkQueuedPrompt c8w_prompt = Except.error "Invalid permission_mode: yolo" :=
  (construction_validates_permission_mode_only c8w_prompt).1 "yolo" rfl (by decide)

/-- `containsSubstring` decides contiguous-sublist (infix) containment. -/
theorem containsSubstring_iff (needle : List Char) :
    ∀ hay : List Char, containsSubstring needle hay = true ↔ needle <:+: hay := by
  intro hay
  induction hay with
  | nil =>
      simp [containsSubstring]
  | cons c rest ih =>
      rw [containsSubstring, List.infix_cons_iff]
      simp [ih]

/-- C9 counterexample: on an input with leading whitespace the classifier
detects the rate limit but records the *stripped* text as the message, not
the full input text as the claim states. -/
theorem classifier_strips_message :
    (RateLimitInfo.from_claude_response " rate limit" 7).is_rate_limited = true ∧
    (RateLimitInfo.from_claude_response " rate limit" 7).limit_message
      = "rate limit" ∧
    (RateLimitInfo.from_claude_response " rate limit" 7).limit_message
      ≠ " rate limit" := by
  refine ⟨?_, ?_, ?_⟩ <;> decide

/-- C9 (amended): the classifier flags the input as rate-limited exactly
when the lowercased text contains one of the five fixed phrases as a
contiguous substring; on a match it records the whitespace-stripped input
text (not the full text) as the message and `now` as the detection time,
and on no match it returns the flag false with an empty message, no reset
time and no timestamp. -/
theorem classifier_spec (text : String) (now : Nat) :
    RateLimitInfo.from_claude_response text now
      = (if rate_limit_indicators.any
            (fun i => containsSubstring i.data (pyLower text.data))
         then { is_rate_limited := true, reset_time := none,
                limit_message := String.mk (pyStrip text.data),
                timestamp := some now }
         else { is_rate_limited := false, reset_time := none,
                limit_message := "", timestamp := none }) ∧
    ((RateLimitInfo.from_claude_response text now).is_rate_limited = true ↔
      ∃ i ∈ rate_limit_indicators, i.data <:+: pyLower text.data) := by
  have hdef : RateLimitInfo.from_claude_response text now
      = (if rate_limit_indicators.any
            (fun i => containsSubstring i.data (pyLower text.data))
         then { is_rate_limited := true, reset_time := none,
                limit_message := String.mk (pyStrip text.data),
                timestamp := some now }
         else { is_rate_limited := false, reset_time := none,
                limit_message := "", timestamp := none }) := rfl
  refine ⟨hdef, ?_⟩
  rw [hdef]
  by_cases h : rate_limit_indicators.any
      (fun i => containsSubstring i.data (pyLower text.data)) = true
  · rw [if_pos h]
    obtain ⟨i, hi, hc⟩ := List.any_eq_true.mp h
    exact iff_of_true rfl ⟨i, hi, (containsSubstring_iff i.data (pyLower text.data)).mp hc⟩
  · rw [if_neg h]
    refine iff_of_false (by simp) ?_
    rintro ⟨i, hi, hinf⟩
    exact h (List.any_eq_true.mpr
      ⟨i, hi, (containsSubstring_iff i.data (pyLower text.data)).mpr hinf⟩)

/-- The `minStep` fold (Python `min` with a key) returns the first element
of minimal priority: the input list splits around the result, with
everything before it of strictly greater priority and everything after it
of at-least-equal priority. -/
theorem foldl_minStep_first_min :
    ∀ (xs : List QueuedPrompt) (x : QueuedPrompt),
      ∃ l1 l2, x :: xs = l1 ++ (xs.foldl minStep x) :: l2 ∧
        (∀ q ∈ l1, (xs.foldl minStep x).priority < q.priority) ∧
        (∀ q ∈ l2, (xs.foldl minStep x).priority ≤ q.priority) := by
  intro xs
  induction xs with
  | nil =>
      intro x
      exact ⟨[], [], rfl, by simp, by simp⟩
  | cons y ys ih =>
      intro x
      show ∃ l1 l2, x :: y :: ys = l1 ++ (ys.foldl minStep (minStep x y)) :: l2 ∧
        (∀ q ∈ l1, (ys.foldl minStep (minStep x y)).priority < q.priority) ∧
        (∀ q ∈ l2, (ys.foldl minStep (minStep x y)).priority ≤ q.priority)
      by_cases hy : y.priority < x.priority
      · have hstep : minStep x y = y := by unfold minStep; exact if_pos hy
        rw [hstep]
        obtain ⟨l1, l2, heq, h1, h2⟩ := ih y
        have hrle : ∀ q ∈ y :: ys, (ys.foldl minStep y).priority ≤ q.priority := by
          intro q hq
          rw [heq] at hq
          rcases List.mem_append.mp hq with hq1 | hq2
          · exact le_of_lt (h1 q hq1)
          · rcases List.mem_cons.mp hq2 with rfl | hq3
            · exact le_refl _
            · exact h2 q hq3
        refine ⟨x :: l1, l2, ?_, ?_, h2⟩
        · rw [List.cons_append, ← heq]
        · intro q hq
          rcases List.mem_cons.mp hq with rfl | hq1
          · exact lt_of_le_of_lt (hrle y (List.mem_cons_self y ys)) hy
          · exact h1 q hq1
      · have hstep : minStep x y = x := by unfold minStep; exact if_neg hy
        have hxy : x.priority ≤ y.priority := le_of_not_lt hy
        rw [hstep]
        obtain ⟨l1, l2, heq, h1, h2⟩ := ih x
        have hrle : ∀ q ∈ x :: ys, (ys.foldl minStep x).priority ≤ q.priority := by
          intro q hq
          rw [heq] at hq
          rcases List.mem_append.mp hq with hq1 | hq2
          · exact le_of_lt (h1 q hq1)
          · rcases List.mem_cons.mp hq2 with rfl | hq3
            · exact le_refl _
            · exact h2 q hq3
        cases l1 with
        | nil =>
            rw [List.nil_append] at heq
            have hx : x = ys.foldl minStep x := (List.cons.injEq _ _ _ _ ▸ heq).1
            have hl2 : ys = l2 := (List.cons.injEq _ _ _ _ ▸ heq).2
            refine ⟨[], y :: ys, ?_, by simp, ?_⟩
            · rw [List.nil_append, ← hx]
            · intro q hq
              rcases List.mem_cons.mp hq with rfl | hq1
              · rw [← hx]; exact hxy
              · exact hrle q (List.mem_cons_of_mem x hq1)
        | cons a l1' =>
            rw [List.cons_append] at heq
            have hx : x = a := (List.cons.injEq _ _ _ _ ▸ heq).1
            have hys : ys = l1' ++ (ys.foldl minStep x) :: l2 :=
              (List.cons.injEq _ _ _ _ ▸ heq).2
            have hra : (ys.foldl minStep x).priority < x.priority := by
              have ha := h1 a (List.mem_cons_self a l1')
              rw [← hx] at ha
              exact ha
            refine ⟨x :: y :: l1', l2, ?_, ?_, h2⟩
            · rw [List.cons_append, List.cons_append, ← hys]
            · intro q hq
              rcases List.mem_cons.mp hq with rfl | hq1
              · exact hra
              · rcases List.mem_cons.mp hq1 with rfl | hq2
                · exact lt_of_lt_of_le hra hxy
                · exact h1 q (List.mem_cons_of_mem a hq2)

/-- C3: selection returns `none` while the scheduler-wide rate-limit
condition is active, and `none` when no prompt is `QUEUED`; otherwise, when
at least one `QUEUED` prompt exists, it returns the `QUEUED` prompt with the
minimum priority value, ties broken by original insertion order (everything
before the returned prompt among the `QUEUED` prompts has strictly greater
priority, everything after has at-least-equal priority). -/
theorem get_next_prompt_selects_min (s : QueueState) (now : Nat) :
    (s.is_rate_limited now = true → s.get_next_prompt now = none) ∧
    (s.prompts.filter (fun p => p.status == PromptStatus.queued) = [] →
      s.get_next_prompt now = none) ∧
    (s.is_rate_limited now = false →
      ∀ q ∈ s.prompts, q.status = PromptStatus.queued →
        ∃ r l1 l2,
          s.get_next_prompt now = some r ∧
          r.status = PromptStatus.queued ∧
          s.prompts.filter (fun p => p.status == PromptStatus.queued)
            = l1 ++ r :: l2 ∧
          (∀ q1 ∈ l1, r.priority < q1.priority) ∧
          (∀ q2 ∈ l2, r.priority ≤ q2.priority)) := by
  refine ⟨?_, ?_, ?_⟩
  · intro h
    unfold QueueState.get_next_prompt
    rw [if_pos h]
  · intro h
    unfold QueueState.get_next_prompt
    rw [h]
    split <;> rfl
  · intro h q hq hqs
    have hmem : q ∈ s.prompts.filter (fun p => p.status == PromptStatus.queued) :=
      List.mem_filter.mpr ⟨hq, by simp [hqs]⟩
    cases hfil : s.prompts.filter (fun p => p.status == PromptStatus.queued) with
    | nil => rw [hfil] at hmem; cases hmem
    | cons x xs =>
        obtain ⟨l1, l2, heq, h1, h2⟩ := foldl_minStep_first_min xs x
        have hrmem : xs.foldl minStep x
            ∈ s.prompts.filter (fun p => p.status == PromptStatus.queued) := by
          rw [hfil, heq]
          exact List.mem_append.mpr (Or.inr (List.mem_cons_self _ _))
        refine ⟨xs.foldl minStep x, l1, l2, ?_, ?_, ?_, h1, h2⟩
        · unfold QueueState.get_next_prompt
          rw [if_neg (by simp [h]), hfil]
        · have := (List.mem_filter.mp hrmem).2
          simpa using this
        · exact hfil ▸ heq

/-- C3 witness: on the concrete queue `c3_state` (priorities 5 and 1
`QUEUED`, plus a priority-1 `COMPLETED` item) with no rate limit active,
selection yields a `QUEUED` prompt of minimal priority in first position
among equals. -/
theorem get_next_prompt_selects_min_witness :
    ∃ r l1 l2,
      c3_state.get_next_prompt 0 = some r ∧
      r.status = PromptStatus.queued ∧
      c3_state.prompts.filter (fun p => p.status == PromptStatus.queued)
        = l1 ++ r :: l2 ∧
      (∀ q1 ∈ l1, r.priority < q1.priority) ∧
      (∀ q2 ∈ l2, r.priority ≤ q2.priority) :=
  (get_next_prompt_selects_min c3_state 0).2.2 (by decide)
    { id := "a", priority := 5 } (by decide) (by decide)

/-- C2 witness: after loading a concrete on-disk state holding one
`EXECUTING` prompt, no in-memory prompt is `EXECUTING`. -/
theorem no_executing_after_load_witness :
    ((reconcile (some {}) (load_queue_state c7w_state)).prompts.all
        (fun p => !(p.status == PromptStatus.executing))) = true :=
  (no_executing_after_load_or_shutdown (some {}) c7w_state []).1

/-- C4 witness: reconciling concrete counters 7 (in memory) and 3
(reloaded) yields their maximum. -/
theorem reconcile_monotone_idempotent_witness :
    (reconcile (some { total_processed := 7 }) { total_processed := 3 }).total_processed
      = max 7 3 :=
  (reconcile_monotone_idempotent { total_processed := 7 } { total_processed := 3 }).1

/-- C5 witness: a concrete in-memory rate-limit condition survives the
reload untouched. -/
theorem reconcile_rate_limit_from_memory_witness :
    (reconcile (some { current_rate_limit := some sampleRateLimit }) {}).current_rate_limit
      = some sampleRateLimit :=
  (reconcile_rate_limit_from_memory { current_rate_limit := some sampleRateLimit } {}).1

/-- C9 witness: the flag-substring equivalence at a concrete input. -/
theorem classifier_spec_witness :
    (RateLimitInfo.from_claude_response "Quota Exceeded today" 11).is_rate_limited = true ↔
      ∃ i ∈ rate_limit_indicators, i.data <:+: pyLower "Quota Exceeded today".data :=
  (classifier_spec "Quota Exceeded today" 11).2
